import Mathlib

/-
Verification of the viser message-protocol layer (`src/viser/_messages.py`).

This file gives a shallow embedding of the message catalog and of the
`redundancy_key` computation that the per-client outbox uses to coalesce
redundant messages, together with the construction-time shape validation
(`__post_init__`) of array-carrying payloads, and proves/refutes the
specification claims about them.

Modelling conventions:
  * Python `float` payload fields are modelled as exact rationals (`Rat`).
    No verified property performs arithmetic on, or even inspects, these
    values; they only ride along inside messages.
  * Python `bytes` is modelled as `List Nat` (byte values).
  * Python `str` is `String`, `Optional[X]` is `Option X`, variadic tuples
    are `List`, and `Literal[...]` string/int enums are small inductives.
  * numpy arrays are modelled by their `shape` and `dtype`: every
    `__post_init__` validator in the source reads only `.shape` and
    `.dtype`, and no verified property reads array element data.
  * `uuid.uuid4()` (used by `RunJavascriptMessage.redundancy_key`) is
    modelled by threading the random draw of the call explicitly: key
    derivation takes a `draw : Nat` argument holding the 122 random bits
    the standard library would produce for that call.  Every other message
    kind ignores the draw.
-/

namespace Viser

/-- Stand-in for Python `float` payload fields (see header). -/
abbrev PyFloat := Rat

/-- Stand-in for Python `bytes`. -/
abbrev Bytes := List Nat

/-- numpy dtype tags that appear in the message catalog. -/
inductive DType
  | float16 | float32 | float64 | uint8 | uint16 | uint32
  deriving DecidableEq

/-- A numpy array, modelled by shape and dtype (see header). -/
structure NDArray where
  shape : List Nat
  dtype : DType
  deriving DecidableEq

/-- `LiteralColor` from the source: the named Mantine color presets. -/
inductive LiteralColor
  | dark | gray | red | pink | grape | violet | indigo | blue | cyan
  | green | lime | yellow | orange | teal
  deriving DecidableEq

/-- A `Union[LiteralColor, Tuple[int, int, int]]` color value. -/
inductive ColorSpec
  | preset (c : LiteralColor)
  | rgb (r g b : Int)
  deriving DecidableEq

/-- `Literal["image/jpeg", "image/png"]`. -/
inductive MediaType
  | jpeg | png
  deriving DecidableEq

/-- `ScenePointerEventType = Literal["click", "rect-select"]`. -/
inductive ScenePointerEventType
  | click | rectSelect
  deriving DecidableEq

/-- The literal string carried by a `ScenePointerEventType` value. -/
def ScenePointerEventType.toStr : ScenePointerEventType → String
  | .click => "click"
  | .rectSelect => "rect-select"

/-- `Literal["square", "diamond", "circle", "rounded", "sparkle"]`. -/
inductive PointShape
  | square | diamond | circle | rounded | sparkle
  deriving DecidableEq

/-- `Literal["float16", "float32"]` (point cloud precision). -/
inductive Precision
  | float16 | float32
  deriving DecidableEq

/-- `Literal["xz", "xy", "yx", "yz", "zx", "zy"]` (grid plane). -/
inductive GridPlane
  | xz | xy | yx | yz | zx | zy
  deriving DecidableEq

/-- The named HDRI environment presets. -/
inductive Hdri
  | apartment | city | dawn | forest | lobby | night | park | studio
  | sunset | warehouse
  deriving DecidableEq

/-- `Literal["front", "back", "double"]` (surface side). -/
inductive Side
  | front | back | double
  deriving DecidableEq

/-- `Literal["standard", "toon3", "toon5"]` (material kind). -/
inductive Material
  | standard | toon3 | toon5
  deriving DecidableEq

/-- `Literal["centripetal", "chordal", "catmullrom"]`. -/
inductive CurveType
  | centripetal | chordal | catmullrom
  deriving DecidableEq

/-- `Literal["floating", "collapsible", "fixed"]`. -/
inductive ControlLayout
  | floating | collapsible | fixed
  deriving DecidableEq

/-- `Literal["small", "medium", "large"]`. -/
inductive ControlWidth
  | small | medium | large
  deriving DecidableEq

/-- `Literal["show", "update"]` (notification mode). -/
inductive NotificationMode
  | show | update
  deriving DecidableEq

/-- `Union[int, Literal[False]]` (notification auto-close setting). -/
inductive AutoClose
  | after (ms : Int)
  | off
  deriving DecidableEq

/-- `Union[Literal["auto", "off"], Tuple[Tuple[float, float], ...]]`. -/
inductive Lod
  | auto
  | off
  | levels (l : List (PyFloat × PyFloat))
  deriving DecidableEq

/-- uplot `Union[Literal[1, 2], None]` chart layout mode (1 = aligned,
2 = faceted). -/
inductive UplotMode
  | aligned | faceted
  deriving DecidableEq

/-- Opaque config payload from the `theme` module (outside the protocol
module; its structure is irrelevant to every verified property). -/
inductive TitlebarConfig
  | mk
  deriving DecidableEq

/-- Opaque config payload from the `uplot` module. -/
inductive UplotSeries
  | mk
  deriving DecidableEq

/-- Opaque config payload from the `uplot` module. -/
inductive UplotBand
  | mk
  deriving DecidableEq

/-- Opaque config payload from the `uplot` module. -/
inductive UplotScale
  | mk
  deriving DecidableEq

/-- Opaque config payload from the `uplot` module. -/
inductive UplotAxis
  | mk
  deriving DecidableEq

/-- Opaque config payload from the `uplot` module. -/
inductive UplotLegend
  | mk
  deriving DecidableEq

/-- Opaque config payload from the `uplot` module. -/
inductive UplotCursor
  | mk
  deriving DecidableEq

/-- Opaque config payload from the `uplot` module. -/
inductive UplotFocus
  | mk
  deriving DecidableEq

/-- `GuiSliderMark` dataclass. -/
structure GuiSliderMark where
  value : PyFloat
  label : Option String
  deriving DecidableEq

/-- `NotificationProps` dataclass. -/
structure NotificationProps where
  title : String
  body : String
  loading : Bool
  with_close_button : Bool
  auto_close : AutoClose
  color : Option ColorSpec
  deriving DecidableEq

/-- `CameraFrustumProps` dataclass. -/
structure CameraFrustumProps where
  fov : PyFloat
  aspect : PyFloat
  scale : PyFloat
  line_width : PyFloat
  color : Int × Int × Int
  image_media_type : Option MediaType
  _image_data : Option Bytes
  cast_shadow : Bool
  receive_shadow : Bool
  deriving DecidableEq

/-- `GlbProps` dataclass. -/
structure GlbProps where
  glb_data : Bytes
  scale : PyFloat
  cast_shadow : Bool
  receive_shadow : Bool
  deriving DecidableEq

/-- `FrameProps` dataclass. -/
structure FrameProps where
  show_axes : Bool
  axes_length : PyFloat
  axes_radius : PyFloat
  origin_radius : PyFloat
  origin_color : Int × Int × Int
  deriving DecidableEq

/-- `BatchedAxesProps` dataclass.  NOTE: this dataclass declares paired
arrays `batched_wxyzs : (N,4)` / `batched_positions : (N,3)` in its field
docstrings but defines no `__post_init__`, so no shape check runs at
construction time. -/
structure BatchedAxesProps where
  batched_wxyzs : NDArray
  batched_positions : NDArray
  batched_scales : Option NDArray
  axes_length : PyFloat
  axes_radius : PyFloat
  deriving DecidableEq

/-- `GridProps` dataclass. -/
structure GridProps where
  width : PyFloat
  height : PyFloat
  width_segments : Int
  height_segments : Int
  plane : GridPlane
  cell_color : Int × Int × Int
  cell_thickness : PyFloat
  cell_size : PyFloat
  section_color : Int × Int × Int
  section_thickness : PyFloat
  section_size : PyFloat
  shadow_opacity : PyFloat
  deriving DecidableEq

/-- `LabelProps` dataclass. -/
structure LabelProps where
  text : String
  deriving DecidableEq

/-- `Gui3DProps` dataclass. -/
structure Gui3DProps where
  order : PyFloat
  container_uuid : String
  deriving DecidableEq

/-- `PointCloudProps` dataclass (shape checks in `PointCloudProps.checks`
below mirror its `__post_init__`). -/
structure PointCloudProps where
  points : NDArray
  colors : NDArray
  point_size : PyFloat
  point_shape : PointShape
  precision : Precision
  deriving DecidableEq

/-- `DirectionalLightProps` dataclass. -/
structure DirectionalLightProps where
  color : Int × Int × Int
  intensity : PyFloat
  cast_shadow : Bool
  deriving DecidableEq

/-- `AmbientLightProps` dataclass. -/
structure AmbientLightProps where
  color : Int × Int × Int
  intensity : PyFloat
  deriving DecidableEq

/-- `HemisphereLightProps` dataclass. -/
structure HemisphereLightProps where
  sky_color : Int × Int × Int
  ground_color : Int × Int × Int
  intensity : PyFloat
  deriving DecidableEq

/-- `PointLightProps` dataclass. -/
structure PointLightProps where
  color : Int × Int × Int
  intensity : PyFloat
  distance : PyFloat
  decay : PyFloat
  cast_shadow : Bool
  deriving DecidableEq

/-- `RectAreaLightProps` dataclass. -/
structure RectAreaLightProps where
  color : Int × Int × Int
  intensity : PyFloat
  width : PyFloat
  height : PyFloat
  deriving DecidableEq

/-- `SpotLightProps` dataclass.  Its `__post_init__` checks
`0 <= angle <= pi/2`; that scalar range check involves no paired arrays and
no claim refers to it, so it is not modelled further. -/
structure SpotLightProps where
  color : Int × Int × Int
  intensity : PyFloat
  distance : PyFloat
  angle : PyFloat
  penumbra : PyFloat
  decay : PyFloat
  cast_shadow : Bool
  deriving DecidableEq

/-- `MeshProps` dataclass (shape checks in `MeshProps.checks` below). -/
structure MeshProps where
  vertices : NDArray
  faces : NDArray
  color : Int × Int × Int
  wireframe : Bool
  opacity : Option PyFloat
  flat_shading : Bool
  side : Side
  material : Material
  cast_shadow : Bool
  receive_shadow : Bool
  deriving DecidableEq

/-- `BoxProps` dataclass. -/
structure BoxProps where
  dimensions : PyFloat × PyFloat × PyFloat
  color : Int × Int × Int
  wireframe : Bool
  opacity : Option PyFloat
  flat_shading : Bool
  side : Side
  material : Material
  cast_shadow : Bool
  receive_shadow : Bool
  deriving DecidableEq

/-- `IcosphereProps` dataclass. -/
structure IcosphereProps where
  radius : PyFloat
  subdivisions : Int
  color : Int × Int × Int
  wireframe : Bool
  opacity : Option PyFloat
  flat_shading : Bool
  side : Side
  material : Material
  cast_shadow : Bool
  receive_shadow : Bool
  deriving DecidableEq

/-- `SkinnedMeshProps(MeshProps)` dataclass, flattened (inherited `MeshProps`
fields followed by its own).  Its own `__post_init__` overrides the one of
`MeshProps` and is mirrored by `SkinnedMeshProps.checks` below. -/
structure SkinnedMeshProps where
  vertices : NDArray
  faces : NDArray
  color : Int × Int × Int
  wireframe : Bool
  opacity : Option PyFloat
  flat_shading : Bool
  side : Side
  material : Material
  cast_shadow : Bool
  receive_shadow : Bool
  bone_wxyzs : NDArray
  bone_positions : NDArray
  skin_indices : NDArray
  skin_weights : NDArray
  deriving DecidableEq

/-- `BatchedMeshesProps(MeshProps, _BatchedMeshExtraProps)` dataclass,
flattened.  NOTE on method resolution: Python's MRO for this class is
`[BatchedMeshesProps, MeshProps, _BatchedMeshExtraProps]`, so the
`__post_init__` that runs at construction time is the one of `MeshProps`
(vertices/faces last-dimension checks only); the batched-array pair checks
declared in `_BatchedMeshExtraProps.__post_init__` are shadowed and never
execute for this class. -/
structure BatchedMeshesProps where
  batched_wxyzs : NDArray
  batched_positions : NDArray
  batched_scales : Option NDArray
  lod : Lod
  vertices : NDArray
  faces : NDArray
  color : Int × Int × Int
  wireframe : Bool
  opacity : Option PyFloat
  flat_shading : Bool
  side : Side
  material : Material
  cast_shadow : Bool
  receive_shadow : Bool
  deriving DecidableEq

/-- `BatchedGlbProps(GlbProps, _BatchedMeshExtraProps)` dataclass, flattened.
`GlbProps` has no `__post_init__`, so here the MRO finds
`_BatchedMeshExtraProps.__post_init__`: the batched-array pair checks DO run
at construction time (mirrored by `BatchedGlbProps.checks` below). -/
structure BatchedGlbProps where
  batched_wxyzs : NDArray
  batched_positions : NDArray
  batched_scales : Option NDArray
  lod : Lod
  glb_data : Bytes
  scale : PyFloat
  cast_shadow : Bool
  receive_shadow : Bool
  deriving DecidableEq

/-- `TransformControlsProps` dataclass. -/
structure TransformControlsProps where
  scale : PyFloat
  line_width : PyFloat
  fixed : Bool
  active_axes : Bool × Bool × Bool
  disable_axes : Bool
  disable_sliders : Bool
  disable_rotations : Bool
  translation_limits : (PyFloat × PyFloat) × (PyFloat × PyFloat) × (PyFloat × PyFloat)
  rotation_limits : (PyFloat × PyFloat) × (PyFloat × PyFloat) × (PyFloat × PyFloat)
  depth_test : Bool
  opacity : PyFloat
  deriving DecidableEq

/-- `ImageProps` dataclass. -/
structure ImageProps where
  media_type : MediaType
  _data : Bytes
  render_width : PyFloat
  render_height : PyFloat
  cast_shadow : Bool
  receive_shadow : Bool
  deriving DecidableEq

/-- `LineSegmentsProps` dataclass.  NOTE: `points : (N,2,3)` and
`colors : (N,2,3)` are documented as paired, but there is no
`__post_init__`, so no shape check runs at construction time. -/
structure LineSegmentsProps where
  points : NDArray
  line_width : PyFloat
  colors : NDArray
  deriving DecidableEq

/-- `CatmullRomSplineProps` dataclass. -/
structure CatmullRomSplineProps where
  points : NDArray
  curve_type : CurveType
  tension : PyFloat
  closed : Bool
  line_width : PyFloat
  color : Int × Int × Int
  segments : Option Int
  deriving DecidableEq

/-- `CubicBezierSplineProps` dataclass.  NOTE: `points : (N,3)` and
`control_points : (2N-2,3)` are documented as paired, but there is no
`__post_init__`, so no shape check runs at construction time. -/
structure CubicBezierSplineProps where
  points : NDArray
  control_points : NDArray
  line_width : PyFloat
  color : Int × Int × Int
  segments : Option Int
  deriving DecidableEq

/-- `GaussianSplatsProps` dataclass. -/
structure GaussianSplatsProps where
  buffer : NDArray
  deriving DecidableEq

/-- `GuiFolderProps` dataclass. -/
structure GuiFolderProps where
  order : PyFloat
  label : String
  visible : Bool
  expand_by_default : Bool
  deriving DecidableEq

/-- `GuiMarkdownProps` dataclass. -/
structure GuiMarkdownProps where
  order : PyFloat
  _markdown : String
  visible : Bool
  deriving DecidableEq

/-- `GuiHtmlProps` dataclass. -/
structure GuiHtmlProps where
  order : PyFloat
  content : String
  visible : Bool
  deriving DecidableEq

/-- `GuiProgressBarProps` dataclass. -/
structure GuiProgressBarProps where
  order : PyFloat
  animated : Bool
  color : Option ColorSpec
  visible : Bool
  deriving DecidableEq

/-- `GuiPlotlyProps` dataclass. -/
structure GuiPlotlyProps where
  order : PyFloat
  _plotly_json_str : String
  aspect : PyFloat
  visible : Bool
  deriving DecidableEq

/-- `GuiUplotProps` dataclass. -/
structure GuiUplotProps where
  order : PyFloat
  data : List NDArray
  mode : Option UplotMode
  title : Option String
  series : List UplotSeries
  bands : Option (List UplotBand)
  scales : Option (List (String × UplotScale))
  axes : Option (List UplotAxis)
  legend : Option UplotLegend
  cursor : Option UplotCursor
  focus : Option UplotFocus
  aspect : PyFloat
  visible : Bool
  deriving DecidableEq

/-- `GuiImageProps` dataclass. -/
structure GuiImageProps where
  order : PyFloat
  label : Option String
  _data : Option Bytes
  media_type : MediaType
  visible : Bool
  deriving DecidableEq

/-- `GuiTabGroupProps` dataclass. -/
structure GuiTabGroupProps where
  _tab_labels : List String
  _tab_icons_html : List (Option String)
  _tab_container_ids : List String
  order : PyFloat
  visible : Bool
  deriving DecidableEq

/-- `GuiButtonProps(GuiBaseProps)` dataclass, flattened (the inherited
`GuiBaseProps` fields `order/label/hint/visible/disabled` come first, as in
the dataclass field order). -/
structure GuiButtonProps where
  order : PyFloat
  label : String
  hint : Option String
  visible : Bool
  disabled : Bool
  color : Option ColorSpec
  _icon_html : Option String
  deriving DecidableEq

/-- `GuiUploadButtonProps(GuiBaseProps)` dataclass, flattened. -/
structure GuiUploadButtonProps where
  order : PyFloat
  label : String
  hint : Option String
  visible : Bool
  disabled : Bool
  color : Option ColorSpec
  _icon_html : Option String
  mime_type : String
  deriving DecidableEq

/-- `GuiSliderProps(GuiBaseProps)` dataclass, flattened. -/
structure GuiSliderProps where
  order : PyFloat
  label : String
  hint : Option String
  visible : Bool
  disabled : Bool
  min : PyFloat
  max : PyFloat
  step : PyFloat
  precision : Int
  _marks : Option (List GuiSliderMark)
  deriving DecidableEq

/-- `GuiMultiSliderProps(GuiBaseProps)` dataclass, flattened. -/
structure GuiMultiSliderProps where
  order : PyFloat
  label : String
  hint : Option String
  visible : Bool
  disabled : Bool
  min : PyFloat
  max : PyFloat
  step : PyFloat
  min_range : Option PyFloat
  precision : Int
  fixed_endpoints : Bool
  _marks : Option (List GuiSliderMark)
  deriving DecidableEq

/-- `GuiNumberProps(GuiBaseProps)` dataclass, flattened. -/
structure GuiNumberProps where
  order : PyFloat
  label : String
  hint : Option String
  visible : Bool
  disabled : Bool
  precision : Int
  step : PyFloat
  min : Option PyFloat
  max : Option PyFloat
  deriving DecidableEq

/-- `GuiRgbProps(GuiBaseProps)` dataclass (adds no fields). -/
structure GuiRgbProps where
  order : PyFloat
  label : String
  hint : Option String
  visible : Bool
  disabled : Bool
  deriving DecidableEq

/-- `GuiRgbaProps(GuiBaseProps)` dataclass (adds no fields). -/
structure GuiRgbaProps where
  order : PyFloat
  label : String
  hint : Option String
  visible : Bool
  disabled : Bool
  deriving DecidableEq

/-- `GuiCheckboxProps(GuiBaseProps)` dataclass (adds no fields). -/
structure GuiCheckboxProps where
  order : PyFloat
  label : String
  hint : Option String
  visible : Bool
  disabled : Bool
  deriving DecidableEq

/-- `GuiVector2Props(GuiBaseProps)` dataclass, flattened. -/
structure GuiVector2Props where
  order : PyFloat
  label : String
  hint : Option String
  visible : Bool
  disabled : Bool
  min : Option (PyFloat × PyFloat)
  max : Option (PyFloat × PyFloat)
  step : PyFloat
  precision : Int
  deriving DecidableEq

/-- `GuiVector3Props(GuiBaseProps)` dataclass, flattened. -/
structure GuiVector3Props where
  order : PyFloat
  label : String
  hint : Option String
  visible : Bool
  disabled : Bool
  min : Option (PyFloat × PyFloat × PyFloat)
  max : Option (PyFloat × PyFloat × PyFloat)
  step : PyFloat
  precision : Int
  deriving DecidableEq

/-- `GuiTextProps(GuiBaseProps)` dataclass, flattened. -/
structure GuiTextProps where
  order : PyFloat
  label : String
  hint : Option String
  visible : Bool
  disabled : Bool
  multiline : Bool
  deriving DecidableEq

/-- `GuiDropdownProps(GuiBaseProps)` dataclass, flattened. -/
structure GuiDropdownProps where
  order : PyFloat
  label : String
  hint : Option String
  visible : Bool
  disabled : Bool
  options : List String
  deriving DecidableEq

/-- `GuiButtonGroupProps(GuiBaseProps)` dataclass, flattened. -/
structure GuiButtonGroupProps where
  order : PyFloat
  label : String
  hint : Option String
  visible : Bool
  disabled : Bool
  options : List String
  deriving DecidableEq

/-- The concrete subclasses of `_CreateSceneNodeMessage`.  Every such
message has the shape `name : str` (on the base class) plus a
`props` payload; they all inherit the base class redundancy key
`"create-or-remove-scene-{name}"`.  One variant per subclass. -/
inductive SceneNodePayload
  | cameraFrustum (props : CameraFrustumProps)
  | glb (props : GlbProps)
  | frame (props : FrameProps)
  | batchedAxes (props : BatchedAxesProps)
  | grid (props : GridProps)
  | label (props : LabelProps)
  | gui3d (props : Gui3DProps)
  | pointCloud (props : PointCloudProps)
  | directionalLight (props : DirectionalLightProps)
  | ambientLight (props : AmbientLightProps)
  | hemisphereLight (props : HemisphereLightProps)
  | pointLight (props : PointLightProps)
  | rectAreaLight (props : RectAreaLightProps)
  | spotLight (props : SpotLightProps)
  | mesh (props : MeshProps)
  | box (props : BoxProps)
  | icosphere (props : IcosphereProps)
  | skinnedMesh (props : SkinnedMeshProps)
  | batchedMeshes (props : BatchedMeshesProps)
  | batchedGlb (props : BatchedGlbProps)
  | transformControls (props : TransformControlsProps)
  | image (props : ImageProps)
  | lineSegments (props : LineSegmentsProps)
  | catmullRomSpline (props : CatmullRomSplineProps)
  | cubicBezierSpline (props : CubicBezierSplineProps)
  | gaussianSplats (props : GaussianSplatsProps)
  deriving DecidableEq

/-- The concrete subclasses of `_CreateGuiComponentMessage`.  Every such
message has the shape `uuid : str` (on the base class) plus the listed
subclass fields; they all inherit the base class redundancy key
`"create-or-remove-gui-{uuid}"`.  One variant per subclass. -/
inductive GuiComponentPayload
  | folder (container_uuid : String) (props : GuiFolderProps)
  | markdown (container_uuid : String) (props : GuiMarkdownProps)
  | html (container_uuid : String) (props : GuiHtmlProps)
  | progressBar (value : PyFloat) (container_uuid : String) (props : GuiProgressBarProps)
  | plotly (container_uuid : String) (props : GuiPlotlyProps)
  | uplot (container_uuid : String) (props : GuiUplotProps)
  | image (container_uuid : String) (props : GuiImageProps)
  | tabGroup (container_uuid : String) (props : GuiTabGroupProps)
  | button (value : Bool) (container_uuid : String) (props : GuiButtonProps)
  | uploadButton (container_uuid : String) (props : GuiUploadButtonProps)
  | slider (value : PyFloat) (container_uuid : String) (props : GuiSliderProps)
  | multiSlider (value : List PyFloat) (container_uuid : String) (props : GuiMultiSliderProps)
  | number (value : PyFloat) (container_uuid : String) (props : GuiNumberProps)
  | rgb (value : Int × Int × Int) (container_uuid : String) (props : GuiRgbProps)
  | rgba (value : Int × Int × Int × Int) (container_uuid : String) (props : GuiRgbaProps)
  | checkbox (value : Bool) (container_uuid : String) (props : GuiCheckboxProps)
  | vector2 (value : PyFloat × PyFloat) (container_uuid : String) (props : GuiVector2Props)
  | vector3 (value : PyFloat × PyFloat × PyFloat) (container_uuid : String) (props : GuiVector3Props)
  | text (value : String) (container_uuid : String) (props : GuiTextProps)
  | dropdown (value : String) (container_uuid : String) (props : GuiDropdownProps)
  | buttonGroup (value : String) (container_uuid : String) (props : GuiButtonGroupProps)
  deriving DecidableEq

/-- A property value carried by the `updates: Dict[str, Any]` field of
`GuiUpdateMessage` / `SceneNodeUpdateMessage`.  The Python type is `Any`;
this small universe covers the value shapes the claims exercise, and no
verified property inspects the values (only the dict's keys). -/
inductive PropVal
  | num (q : PyFloat)
  | int (n : Int)
  | str (s : String)
  | bool (b : Bool)
  | triple (x y z : PyFloat)
  deriving DecidableEq

set_option maxHeartbeats 3200000 in
/-- The message catalog of `_messages.py`: one variant per concrete message
class (scene-node creation subclasses are grouped under `createSceneNode`
and GUI-component creation subclasses under `createGuiComponent`, mirroring
their shared base classes). -/
inductive Msg
  | createSceneNode (name : String) (payload : SceneNodePayload)
  | removeSceneNode (name : String)
  | createGuiComponent (uuid : String) (payload : GuiComponentPayload)
  | guiRemove (uuid : String)
  | runJavascript (source : String)
  | notification (mode : NotificationMode) (uuid : String) (props : NotificationProps)
  | removeNotification (uuid : String)
  | viewerCamera (wxyz : PyFloat × PyFloat × PyFloat × PyFloat)
      (position : PyFloat × PyFloat × PyFloat) (fov near far : PyFloat)
      (image_height image_width : Int)
      (look_at up_direction : PyFloat × PyFloat × PyFloat)
  | scenePointer (event_type : ScenePointerEventType)
      (ray_origin ray_direction : Option (PyFloat × PyFloat × PyFloat))
      (screen_pos : List (PyFloat × PyFloat))
  | scenePointerEnable (enable : Bool) (event_type : ScenePointerEventType)
  | environmentMap (hdri : Option Hdri) (background : Bool)
      (background_blurriness background_intensity : PyFloat)
      (background_wxyz : PyFloat × PyFloat × PyFloat × PyFloat)
      (environment_intensity : PyFloat)
      (environment_wxyz : PyFloat × PyFloat × PyFloat × PyFloat)
  | enableLights (enabled : Bool) (cast_shadow : Bool)
  | setBoneOrientation (name : String) (bone_index : Int)
      (wxyz : PyFloat × PyFloat × PyFloat × PyFloat)
  | setBonePosition (name : String) (bone_index : Int)
      (position : PyFloat × PyFloat × PyFloat)
  | setCameraPosition (position : PyFloat × PyFloat × PyFloat)
  | setCameraUpDirection (position : PyFloat × PyFloat × PyFloat)
  | setCameraLookAt (look_at : PyFloat × PyFloat × PyFloat)
  | setCameraNear (near : PyFloat)
  | setCameraFar (far : PyFloat)
  | setCameraFov (fov : PyFloat)
  | setOrientation (name : String) (wxyz : PyFloat × PyFloat × PyFloat × PyFloat)
  | setPosition (name : String) (position : PyFloat × PyFloat × PyFloat)
  | transformControlsUpdate (name : String)
      (wxyz : PyFloat × PyFloat × PyFloat × PyFloat)
      (position : PyFloat × PyFloat × PyFloat)
  | transformControlsDragStart (name : String)
  | transformControlsDragEnd (name : String)
  | backgroundImage (media_type : MediaType) (rgb_data depth_data : Option Bytes)
  | setSceneNodeVisibility (name : String) (visible : Bool)
  | setSceneNodeClickable (name : String) (clickable : Bool)
  | sceneNodeClick (name : String) (instance_index : Option Int)
      (ray_origin ray_direction : PyFloat × PyFloat × PyFloat)
      (screen_pos : PyFloat × PyFloat)
  | resetGui
  | guiModal (order : PyFloat) (uuid : String) (title : String)
  | guiCloseModal (uuid : String)
  | guiUpdate (uuid : String) (updates : List (String × PropVal))
  | sceneNodeUpdate (name : String) (updates : List (String × PropVal))
  | themeConfiguration (titlebar_content : Option TitlebarConfig)
      (control_layout : ControlLayout) (control_width : ControlWidth)
      (show_logo show_share_button dark_mode : Bool)
      (colors : Option (List String))
  | getRenderRequest (format : MediaType) (height width quality : Int)
      (wxyz : PyFloat × PyFloat × PyFloat × PyFloat)
      (position : PyFloat × PyFloat × PyFloat) (fov : PyFloat)
  | getRenderResponse (payload : Bytes)
  | fileTransferStartUpload (source_component_uuid transfer_uuid filename mime_type : String)
      (part_count size_bytes : Int)
  | fileTransferStartDownload (save_immediately : Bool)
      (transfer_uuid filename mime_type : String) (part_count size_bytes : Int)
  | fileTransferPart (source_component_uuid : Option String)
      (transfer_uuid : String) (part_index : Int) (content : Bytes)
  | fileTransferPartAck (source_component_uuid : Option String)
      (transfer_uuid : String) (transferred_bytes total_bytes : Int)
  | shareUrlRequest
  | shareUrlUpdated (share_url : Option String)
  | shareUrlDisconnect
  | setGuiPanelLabel (label : Option String)
  deriving DecidableEq

/-- `type(self).__name__` for the concrete `_CreateSceneNodeMessage`
subclasses. -/
def SceneNodePayload.kindName : SceneNodePayload → String
  | .cameraFrustum _ => "CameraFrustumMessage"
  | .glb _ => "GlbMessage"
  | .frame _ => "FrameMessage"
  | .batchedAxes _ => "BatchedAxesMessage"
  | .grid _ => "GridMessage"
  | .label _ => "LabelMessage"
  | .gui3d _ => "Gui3DMessage"
  | .pointCloud _ => "PointCloudMessage"
  | .directionalLight _ => "DirectionalLightMessage"
  | .ambientLight _ => "AmbientLightMessage"
  | .hemisphereLight _ => "HemisphereLightMessage"
  | .pointLight _ => "PointLightMessage"
  | .rectAreaLight _ => "RectAreaLightMessage"
  | .spotLight _ => "SpotLightMessage"
  | .mesh _ => "MeshMessage"
  | .box _ => "BoxMessage"
  | .icosphere _ => "IcosphereMessage"
  | .skinnedMesh _ => "SkinnedMeshMessage"
  | .batchedMeshes _ => "BatchedMeshesMessage"
  | .batchedGlb _ => "BatchedGlbMessage"
  | .transformControls _ => "TransformControlsMessage"
  | .image _ => "ImageMessage"
  | .lineSegments _ => "LineSegmentsMessage"
  | .catmullRomSpline _ => "CatmullRomSplineMessage"
  | .cubicBezierSpline _ => "CubicBezierSplineMessage"
  | .gaussianSplats _ => "GaussianSplatsMessage"

/-- `type(self).__name__` for the concrete `_CreateGuiComponentMessage`
subclasses. -/
def GuiComponentPayload.kindName : GuiComponentPayload → String
  | .folder .. => "GuiFolderMessage"
  | .markdown .. => "GuiMarkdownMessage"
  | .html .. => "GuiHtmlMessage"
  | .progressBar .. => "GuiProgressBarMessage"
  | .plotly .. => "GuiPlotlyMessage"
  | .uplot .. => "GuiUplotMessage"
  | .image .. => "GuiImageMessage"
  | .tabGroup .. => "GuiTabGroupMessage"
  | .button .. => "GuiButtonMessage"
  | .uploadButton .. => "GuiUploadButtonMessage"
  | .slider .. => "GuiSliderMessage"
  | .multiSlider .. => "GuiMultiSliderMessage"
  | .number .. => "GuiNumberMessage"
  | .rgb .. => "GuiRgbMessage"
  | .rgba .. => "GuiRgbaMessage"
  | .checkbox .. => "GuiCheckboxMessage"
  | .vector2 .. => "GuiVector2Message"
  | .vector3 .. => "GuiVector3Message"
  | .text .. => "GuiTextMessage"
  | .dropdown .. => "GuiDropdownMessage"
  | .buttonGroup .. => "GuiButtonGroupMessage"

/-- `type(self).__name__` per message variant. -/
def Msg.kindName : Msg → String
  | .createSceneNode _ payload => payload.kindName
  | .removeSceneNode _ => "RemoveSceneNodeMessage"
  | .createGuiComponent _ payload => payload.kindName
  | .guiRemove _ => "GuiRemoveMessage"
  | .runJavascript _ => "RunJavascriptMessage"
  | .notification .. => "NotificationMessage"
  | .removeNotification _ => "RemoveNotificationMessage"
  | .viewerCamera .. => "ViewerCameraMessage"
  | .scenePointer .. => "ScenePointerMessage"
  | .scenePointerEnable .. => "ScenePointerEnableMessage"
  | .environmentMap .. => "EnvironmentMapMessage"
  | .enableLights .. => "EnableLightsMessage"
  | .setBoneOrientation .. => "SetBoneOrientationMessage"
  | .setBonePosition .. => "SetBonePositionMessage"
  | .setCameraPosition _ => "SetCameraPositionMessage"
  | .setCameraUpDirection _ => "SetCameraUpDirectionMessage"
  | .setCameraLookAt _ => "SetCameraLookAtMessage"
  | .setCameraNear _ => "SetCameraNearMessage"
  | .setCameraFar _ => "SetCameraFarMessage"
  | .setCameraFov _ => "SetCameraFovMessage"
  | .setOrientation .. => "SetOrientationMessage"
  | .setPosition .. => "SetPositionMessage"
  | .transformControlsUpdate .. => "TransformControlsUpdateMessage"
  | .transformControlsDragStart _ => "TransformControlsDragStartMessage"
  | .transformControlsDragEnd _ => "TransformControlsDragEndMessage"
  | .backgroundImage .. => "BackgroundImageMessage"
  | .setSceneNodeVisibility .. => "SetSceneNodeVisibilityMessage"
  | .setSceneNodeClickable .. => "SetSceneNodeClickableMessage"
  | .sceneNodeClick .. => "SceneNodeClickMessage"
  | .resetGui => "ResetGuiMessage"
  | .guiModal .. => "GuiModalMessage"
  | .guiCloseModal _ => "GuiCloseModalMessage"
  | .guiUpdate .. => "GuiUpdateMessage"
  | .sceneNodeUpdate .. => "SceneNodeUpdateMessage"
  | .themeConfiguration .. => "ThemeConfigurationMessage"
  | .getRenderRequest .. => "GetRenderRequestMessage"
  | .getRenderResponse _ => "GetRenderResponseMessage"
  | .fileTransferStartUpload .. => "FileTransferStartUpload"
  | .fileTransferStartDownload .. => "FileTransferStartDownload"
  | .fileTransferPart .. => "FileTransferPart"
  | .fileTransferPartAck .. => "FileTransferPartAck"
  | .shareUrlRequest => "ShareUrlRequest"
  | .shareUrlUpdated _ => "ShareUrlUpdated"
  | .shareUrlDisconnect => "ShareUrlDisconnect"
  | .setGuiPanelLabel _ => "SetGuiPanelLabelMessage"

/-- The identifying field the base-class `Message.redundancy_key` probes
with `getattr`: the message's `name` field if the class declares one, else
its `uuid` field, else none.  (No message class declares both.) -/
def Msg.identityField : Msg → Option String
  | .createSceneNode name _ => some name
  | .removeSceneNode name => some name
  | .createGuiComponent uuid _ => some uuid
  | .guiRemove uuid => some uuid
  | .runJavascript _ => none
  | .notification _ uuid _ => some uuid
  | .removeNotification uuid => some uuid
  | .viewerCamera .. => none
  | .scenePointer .. => none
  | .scenePointerEnable .. => none
  | .environmentMap .. => none
  | .enableLights .. => none
  | .setBoneOrientation name _ _ => some name
  | .setBonePosition name _ _ => some name
  | .setCameraPosition _ => none
  | .setCameraUpDirection _ => none
  | .setCameraLookAt _ => none
  | .setCameraNear _ => none
  | .setCameraFar _ => none
  | .setCameraFov _ => none
  | .setOrientation name _ => some name
  | .setPosition name _ => some name
  | .transformControlsUpdate name _ _ => some name
  | .transformControlsDragStart name => some name
  | .transformControlsDragEnd name => some name
  | .backgroundImage .. => none
  | .setSceneNodeVisibility name _ => some name
  | .setSceneNodeClickable name _ => some name
  | .sceneNodeClick name _ _ _ _ => some name
  | .resetGui => none
  | .guiModal _ uuid _ => some uuid
  | .guiCloseModal uuid => some uuid
  | .guiUpdate uuid _ => some uuid
  | .sceneNodeUpdate name _ => some name
  | .themeConfiguration .. => none
  | .getRenderRequest .. => none
  | .getRenderResponse _ => none
  | .fileTransferStartUpload .. => none
  | .fileTransferStartDownload .. => none
  | .fileTransferPart .. => none
  | .fileTransferPartAck .. => none
  | .shareUrlRequest => none
  | .shareUrlUpdated _ => none
  | .shareUrlDisconnect => none
  | .setGuiPanelLabel _ => none

/-- Whether the message's class overrides `redundancy_key` (instead of
inheriting the base-class implementation). -/
def Msg.overridesRedundancyKey : Msg → Bool
  | .createSceneNode .. | .removeSceneNode .. | .createGuiComponent ..
  | .guiRemove .. | .runJavascript .. | .scenePointerEnable ..
  | .setBoneOrientation .. | .setBonePosition .. | .guiModal ..
  | .guiCloseModal .. | .guiUpdate .. | .sceneNodeUpdate ..
  | .fileTransferStartUpload .. | .fileTransferStartDownload ..
  | .fileTransferPart .. | .fileTransferPartAck .. => true
  | _ => false

/-- One decimal digit character. -/
def digitChar : Nat → Char
  | 0 => '0' | 1 => '1' | 2 => '2' | 3 => '3' | 4 => '4'
  | 5 => '5' | 6 => '6' | 7 => '7' | 8 => '8' | _ => '9'

/-- Decimal digit characters of a natural number, most significant first:
Python `str(n)` for `n >= 0`. -/
def natDigits (n : Nat) : List Char :=
  if _h : n < 10 then [digitChar n]
  else natDigits (n / 10) ++ [digitChar (n % 10)]
decreasing_by exact Nat.div_lt_self (by omega) (by omega)

/-- Python `str()` of a nonnegative int. -/
def natStr (n : Nat) : String := String.mk (natDigits n)

/-- Python `str()` of an int. -/
def intStr : Int → String
  | .ofNat n => natStr n
  | .negSucc n => "-" ++ natStr (n + 1)

/-- Python `str(b).lower()` for a bool. -/
def boolLowerStr : Bool → String
  | true => "true"
  | false => "false"

/-- One lowercase hexadecimal digit character. -/
def hexChar : Nat → Char
  | 0 => '0' | 1 => '1' | 2 => '2' | 3 => '3' | 4 => '4'
  | 5 => '5' | 6 => '6' | 7 => '7' | 8 => '8' | 9 => '9'
  | 10 => 'a' | 11 => 'b' | 12 => 'c' | 13 => 'd' | 14 => 'e' | _ => 'f'

/-- Nibble `i` (base-16 digit) of a natural number. -/
def nib (d i : Nat) : Nat := d / 16 ^ i % 16

/-- `str(uuid.uuid4())` for a call whose 122 random bits are `d`
(taken mod `2 ^ 122`): the canonical 8-4-4-4-12 lowercase-hex layout with
version nibble `'4'` and variant nibble in `'8'..'b'`. -/
def uuid4Chars (d : Nat) : List Char :=
  [hexChar (nib d 0), hexChar (nib d 1), hexChar (nib d 2), hexChar (nib d 3),
   hexChar (nib d 4), hexChar (nib d 5), hexChar (nib d 6), hexChar (nib d 7), '-',
   hexChar (nib d 8), hexChar (nib d 9), hexChar (nib d 10), hexChar (nib d 11), '-',
   '4', hexChar (nib d 12), hexChar (nib d 13), hexChar (nib d 14), '-',
   hexChar (8 + d / 16 ^ 30 % 4), hexChar (nib d 15), hexChar (nib d 16),
   hexChar (nib d 17), '-',
   hexChar (nib d 18), hexChar (nib d 19), hexChar (nib d 20), hexChar (nib d 21),
   hexChar (nib d 22), hexChar (nib d 23), hexChar (nib d 24), hexChar (nib d 25),
   hexChar (nib d 26), hexChar (nib d 27), hexChar (nib d 28), hexChar (nib d 29)]

/-- String form of the modelled `uuid.uuid4()` draw. -/
def uuid4Str (d : Nat) : String := String.mk (uuid4Chars d)

/-- The base-class `Message.redundancy_key`: `"_".join(parts)` where
`parts` is the kind name followed by the identifying `name`/`uuid` field
when the message has one. -/
def defaultRedundancyKey (kind : String) : Option String → String
  | none => kind
  | some ident => kind ++ "_" ++ ident

/-- Python `",".join(keys)`. -/
def joinComma : List String → String
  | [] => ""
  | [k] => k
  | k :: rest => k ++ "," ++ joinComma rest

/-- `redundancy_key` dispatch: each override in the source is an arm here;
every other message class falls through to the base-class implementation.
`draw` models the RNG output consumed by `uuid.uuid4()` inside
`RunJavascriptMessage.redundancy_key`; all other arms ignore it. -/
def redundancyKey (m : Msg) (draw : Nat) : String :=
  match m with
  | .createSceneNode name _ => "create-or-remove-scene-" ++ name
  | .removeSceneNode name => "create-or-remove-scene-" ++ name
  | .createGuiComponent uuid _ => "create-or-remove-gui-" ++ uuid
  | .guiRemove uuid => "create-or-remove-gui-" ++ uuid
  | .runJavascript _ => uuid4Str draw
  | .scenePointerEnable enable event_type =>
      "ScenePointerEnableMessage" ++ "-" ++ event_type.toStr ++ "-" ++ boolLowerStr enable
  | .setBoneOrientation name bone_index _ =>
      "SetBoneOrientationMessage" ++ "-" ++ name ++ "-" ++ intStr bone_index
  | .setBonePosition name bone_index _ =>
      "SetBonePositionMessage" ++ "-" ++ name ++ "-" ++ intStr bone_index
  | .guiModal _ uuid _ => "modal-" ++ uuid
  | .guiCloseModal uuid => "modal-" ++ uuid
  | .guiUpdate uuid updates =>
      "GuiUpdateMessage" ++ "-" ++ uuid ++ "-" ++ joinComma (updates.map Prod.fst)
  | .sceneNodeUpdate name updates =>
      "SceneNodeUpdateMessage" ++ "-" ++ name ++ "-" ++ joinComma (updates.map Prod.fst)
  | .fileTransferStartUpload _ transfer_uuid _ _ _ _ =>
      "FileTransferStartUpload" ++ "-" ++ transfer_uuid
  | .fileTransferStartDownload _ transfer_uuid _ _ _ _ =>
      "FileTransferStartDownload" ++ "-" ++ transfer_uuid
  | .fileTransferPart _ transfer_uuid part_index _ =>
      "FileTransferPart" ++ "-" ++ transfer_uuid ++ "-" ++ intStr part_index
  | .fileTransferPartAck _ transfer_uuid transferred_bytes _ =>
      "FileTransferPartAck" ++ "-" ++ transfer_uuid ++ "-" ++ intStr transferred_bytes
  | m => defaultRedundancyKey m.kindName m.identityField

/-- Modelled from the spec: the per-client Outbox of spec section 4.2 lives
outside the protocol module under verification (only `redundancy_key` is in
it), so its buffer is reconstructed from the spec's words: `enqueue` inserts
the message, and if an existing buffered message has the same redundancy
key it is replaced in place (value updated, original position kept);
otherwise the message is appended.  Each buffered entry stores the
redundancy key computed at enqueue time alongside the message; `draw` is
the RNG draw for that enqueue's key computation. -/
def enqueue (draw : Nat) (buf : List (String × Msg)) (m : Msg) : List (String × Msg) :=
  let k := redundancyKey m draw
  if buf.any (fun e => e.1 == k) then
    buf.map (fun e => if e.1 == k then (e.1, m) else e)
  else
    buf ++ [(k, m)]

/-- Modelled from the spec: `flush` drains the buffer in insertion order
(post-coalescing). -/
def flush (buf : List (String × Msg)) : List Msg := buf.map Prod.snd

/-- `MeshProps.__post_init__` as a Boolean validity check. -/
def MeshProps.checks (p : MeshProps) : Bool :=
  p.vertices.shape.getLastD 0 == 3 && p.faces.shape.getLastD 0 == 3

/-- `PointCloudProps.__post_init__` as a Boolean validity check. -/
def PointCloudProps.checks (p : PointCloudProps) : Bool :=
  p.points.shape.length == 2
    && (p.colors.shape == [3] || p.colors.shape == [p.points.shape.headD 0, 3])
    && p.points.shape.getLastD 0 == 3
    && (match p.precision with
        | .float16 => p.points.dtype == .float16
        | .float32 => p.points.dtype == .float32)
    && p.colors.dtype == .uint8

/-- `SkinnedMeshProps.__post_init__` as a Boolean validity check (it
overrides, and partly repeats, the `MeshProps` one).  The source's
`assert self.skin_weights is not None` is vacuous here because the field is
not optional. -/
def SkinnedMeshProps.checks (p : SkinnedMeshProps) : Bool :=
  p.bone_wxyzs.shape.getLastD 0 == 4
    && p.bone_positions.shape.getLastD 0 == 3
    && p.bone_wxyzs.shape.headD 0 == p.bone_positions.shape.headD 0
    && p.vertices.shape.getLastD 0 == 3
    && p.faces.shape.getLastD 0 == 3
    && p.skin_indices.shape == p.skin_weights.shape
    && p.skin_weights.shape == [p.vertices.shape.headD 0, 4]

/-- `_BatchedMeshExtraProps.__post_init__` as a Boolean validity check,
instantiated at `BatchedGlbProps` (the one concrete class whose MRO
actually reaches it; see the `BatchedMeshesProps` note). -/
def BatchedGlbProps.checks (p : BatchedGlbProps) : Bool :=
  p.batched_wxyzs.shape.getLastD 0 == 4
    && p.batched_positions.shape.getLastD 0 == 3
    && p.batched_wxyzs.shape.headD 0 == p.batched_positions.shape.headD 0
    && (match p.batched_scales with
        | none => true
        | some s =>
            s.shape == [p.batched_wxyzs.shape.headD 0]
              || s.shape == [p.batched_wxyzs.shape.headD 0, 3])

/-- The `__post_init__` that Python's MRO selects for `BatchedMeshesProps`
is `MeshProps.__post_init__`; the batched-pair checks never run. -/
def BatchedMeshesProps.checks (p : BatchedMeshesProps) : Bool :=
  p.vertices.shape.getLastD 0 == 3 && p.faces.shape.getLastD 0 == 3

/-- Constructing a `PointCloudProps`: dataclass `__init__` then
`__post_init__`; a failed assert raises at construction time, modelled as
`none`. -/
def PointCloudProps.construct (points colors : NDArray) (point_size : PyFloat)
    (point_shape : PointShape) (precision : Precision) : Option PointCloudProps :=
  let p : PointCloudProps := ⟨points, colors, point_size, point_shape, precision⟩
  if p.checks then some p else none

/-- Constructing a `SkinnedMeshProps` (see `PointCloudProps.construct`). -/
def SkinnedMeshProps.construct (vertices faces : NDArray) (color : Int × Int × Int)
    (wireframe : Bool) (opacity : Option PyFloat) (flat_shading : Bool)
    (side : Side) (material : Material) (cast_shadow receive_shadow : Bool)
    (bone_wxyzs bone_positions skin_indices skin_weights : NDArray) :
    Option SkinnedMeshProps :=
  let p : SkinnedMeshProps :=
    ⟨vertices, faces, color, wireframe, opacity, flat_shading, side, material,
     cast_shadow, receive_shadow, bone_wxyzs, bone_positions, skin_indices,
     skin_weights⟩
  if p.checks then some p else none

/-- Constructing a `BatchedGlbProps` (see `PointCloudProps.construct`). -/
def BatchedGlbProps.construct (batched_wxyzs batched_positions : NDArray)
    (batched_scales : Option NDArray) (lod : Lod) (glb_data : Bytes)
    (scale : PyFloat) (cast_shadow receive_shadow : Bool) : Option BatchedGlbProps :=
  let p : BatchedGlbProps :=
    ⟨batched_wxyzs, batched_positions, batched_scales, lod, glb_data, scale,
     cast_shadow, receive_shadow⟩
  if p.checks then some p else none

/-- Constructing a `BatchedMeshesProps`: only the `MeshProps` checks run
(MRO; see `BatchedMeshesProps.checks`). -/
def BatchedMeshesProps.construct (batched_wxyzs batched_positions : NDArray)
    (batched_scales : Option NDArray) (lod : Lod) (vertices faces : NDArray)
    (color : Int × Int × Int) (wireframe : Bool) (opacity : Option PyFloat)
    (flat_shading : Bool) (side : Side) (material : Material)
    (cast_shadow receive_shadow : Bool) : Option BatchedMeshesProps :=
  let p : BatchedMeshesProps :=
    ⟨batched_wxyzs, batched_positions, batched_scales, lod, vertices, faces,
     color, wireframe, opacity, flat_shading, side, material, cast_shadow,
     receive_shadow⟩
  if p.checks then some p else none

/-- Constructing a `BatchedAxesProps`: the dataclass has no
`__post_init__`, so construction never fails. -/
def BatchedAxesProps.construct (batched_wxyzs batched_positions : NDArray)
    (batched_scales : Option NDArray) (axes_length axes_radius : PyFloat) :
    Option BatchedAxesProps :=
  some ⟨batched_wxyzs, batched_positions, batched_scales, axes_length, axes_radius⟩

/-- Discriminator for the one message kind whose key consumes randomness. -/
def Msg.isRunJavascript : Msg → Bool
  | .runJavascript _ => true
  | _ => false

/-- Lowercase hex digit test (`0-9` or `a-f`). -/
def isHexLowerDigit (c : Char) : Bool :=
  (48 ≤ c.toNat && c.toNat ≤ 57) || (97 ≤ c.toNat && c.toNat ≤ 102)

/- ------------------------------------------------------------------ -/
/- General-purpose lemmas about the helper functions.                  -/
/- ------------------------------------------------------------------ -/

theorem string_append_inj_right {s t1 t2 : String} (h : s ++ t1 = s ++ t2) :
    t1 = t2 := by
  have hd := congrArg String.data h
  rw [String.data_append, String.data_append] at hd
  exact String.ext (List.append_cancel_left hd)

theorem digitChar_ne_dash (k : Nat) : digitChar k ≠ '-' := by
  unfold digitChar
  split <;> decide

theorem digitChar_toNat : ∀ k < 10, (digitChar k).toNat = 48 + k := by decide

theorem natDigits_ne_nil (n : Nat) : natDigits n ≠ [] := by
  rw [natDigits]
  split
  · simp
  · simp

theorem dash_not_mem_natDigits (n : Nat) : '-' ∉ natDigits n := by
  induction n using Nat.strong_induction_on with
  | _ n ih =>
    rw [natDigits]
    split
    · simp
      exact (digitChar_ne_dash n).symm
    · intro hmem
      rw [List.mem_append] at hmem
      rcases hmem with hmem | hmem
      · exact ih (n / 10) (Nat.div_lt_self (by omega) (by omega)) hmem
      · rw [List.mem_singleton] at hmem
        exact digitChar_ne_dash (n % 10) hmem.symm

theorem natDigits_foldl (n : Nat) :
    ∀ acc, (natDigits n).foldl (fun a c => a * 10 + (c.toNat - 48)) acc =
      acc * 10 ^ (natDigits n).length + n := by
  induction n using Nat.strong_induction_on with
  | _ n ih =>
    intro acc
    rw [natDigits]
    split
    · rename_i h
      have hc := digitChar_toNat n h
      simp [List.foldl]
      omega
    · rename_i h
      rw [List.foldl_append, List.length_append]
      rw [ih (n / 10) (Nat.div_lt_self (by omega) (by omega)) acc]
      have hc := digitChar_toNat (n % 10) (by omega)
      simp only [List.foldl, List.length_singleton]
      rw [hc]
      have hpow : 10 ^ ((natDigits (n / 10)).length + 1) =
          10 ^ (natDigits (n / 10)).length * 10 := pow_succ 10 _
      rw [hpow]
      have hmod : n / 10 * 10 + n % 10 = n := by omega
      calc (acc * 10 ^ (natDigits (n / 10)).length + n / 10) * 10 + (48 + n % 10 - 48)
          = acc * (10 ^ (natDigits (n / 10)).length * 10) + (n / 10 * 10 + n % 10) := by
            ring_nf
            omega
        _ = acc * (10 ^ (natDigits (n / 10)).length * 10) + n := by rw [hmod]

theorem natDigits_inj {m n : Nat} (h : natDigits m = natDigits n) : m = n := by
  have hm := natDigits_foldl m 0
  have hn := natDigits_foldl n 0
  rw [h] at hm
  rw [hm] at hn
  omega

/-- Splitting `t ++ "-" ++ digits` is unique when the digit part is
dash-free: the separator is the last dash of the string. -/
theorem append_dash_inj {t1 t2 d1 d2 : List Char}
    (h1 : '-' ∉ d1) (h2 : '-' ∉ d2)
    (h : t1 ++ '-' :: d1 = t2 ++ '-' :: d2) : t1 = t2 ∧ d1 = d2 := by
  induction t1 generalizing t2 with
  | nil =>
    cases t2 with
    | nil => simpa using h
    | cons c t2' =>
      simp only [List.nil_append, List.cons_append, List.cons.injEq] at h
      exfalso
      apply h1
      rw [h.2]
      simp
  | cons c t1' ih =>
    cases t2 with
    | nil =>
      simp only [List.nil_append, List.cons_append, List.cons.injEq] at h
      exfalso
      apply h2
      rw [← h.2]
      simp
    | cons c' t2' =>
      simp only [List.cons_append, List.cons.injEq] at h
      obtain ⟨hc, ht⟩ := h
      obtain ⟨e1, e2⟩ := ih ht
      exact ⟨by rw [hc, e1], e2⟩

theorem hexChar_isHex : ∀ k < 16, isHexLowerDigit (hexChar k) = true := by decide

theorem hexChar_inj_bounded :
    ∀ a < 16, ∀ b < 16, hexChar a = hexChar b → a = b := by decide

theorem nib_lt (d i : Nat) : nib d i < 16 :=
  Nat.mod_lt _ (by norm_num)

theorem hexChar_nib_inj {d1 d2 i j : Nat}
    (h : hexChar (nib d1 i) = hexChar (nib d2 j)) : nib d1 i = nib d2 j :=
  hexChar_inj_bounded _ (nib_lt d1 i) _ (nib_lt d2 j) h

theorem mod_pow_sixteen_eq {d1 d2 : Nat} (k : Nat)
    (h : ∀ i < k, nib d1 i = nib d2 i) : d1 % 16 ^ k = d2 % 16 ^ k := by
  induction k with
  | zero => simp [Nat.mod_one]
  | succ k ih =>
    rw [pow_succ, Nat.mod_mul, Nat.mod_mul]
    rw [ih (fun i hi => h i (by omega))]
    have hk := h k (by omega)
    unfold nib at hk
    rw [hk]

/-- The modelled uuid4 string determines the 122 random bits of the draw. -/
theorem uuid4Chars_inj {d1 d2 : Nat} (h : uuid4Chars d1 = uuid4Chars d2) :
    d1 % 2 ^ 122 = d2 % 2 ^ 122 := by
  unfold uuid4Chars at h
  simp only [List.cons.injEq, and_true] at h
  obtain ⟨e0, e1, e2, e3, e4, e5, e6, e7, -, e8, e9, e10, e11, -, -, e12, e13,
    e14, -, ev, e15, e16, e17, -, e18, e19, e20, e21, e22, e23, e24, e25, e26,
    e27, e28, e29⟩ := h
  have n0 := hexChar_nib_inj e0
  have n1 := hexChar_nib_inj e1
  have n2 := hexChar_nib_inj e2
  have n3 := hexChar_nib_inj e3
  have n4 := hexChar_nib_inj e4
  have n5 := hexChar_nib_inj e5
  have n6 := hexChar_nib_inj e6
  have n7 := hexChar_nib_inj e7
  have n8 := hexChar_nib_inj e8
  have n9 := hexChar_nib_inj e9
  have n10 := hexChar_nib_inj e10
  have n11 := hexChar_nib_inj e11
  have n12 := hexChar_nib_inj e12
  have n13 := hexChar_nib_inj e13
  have n14 := hexChar_nib_inj e14
  have n15 := hexChar_nib_inj e15
  have n16 := hexChar_nib_inj e16
  have n17 := hexChar_nib_inj e17
  have n18 := hexChar_nib_inj e18
  have n19 := hexChar_nib_inj e19
  have n20 := hexChar_nib_inj e20
  have n21 := hexChar_nib_inj e21
  have n22 := hexChar_nib_inj e22
  have n23 := hexChar_nib_inj e23
  have n24 := hexChar_nib_inj e24
  have n25 := hexChar_nib_inj e25
  have n26 := hexChar_nib_inj e26
  have n27 := hexChar_nib_inj e27
  have n28 := hexChar_nib_inj e28
  have n29 := hexChar_nib_inj e29
  have hb1 : d1 / 16 ^ 30 % 4 < 4 := Nat.mod_lt _ (by norm_num)
  have hb2 : d2 / 16 ^ 30 % 4 < 4 := Nat.mod_lt _ (by norm_num)
  have hv : d1 / 16 ^ 30 % 4 = d2 / 16 ^ 30 % 4 := by
    have := hexChar_inj_bounded _ (by omega) _ (by omega) ev
    omega
  have hnib : ∀ i < 30, nib d1 i = nib d2 i := by
    intro i hi
    interval_cases i <;> assumption
  have h30 := mod_pow_sixteen_eq 30 hnib
  have h122 : (2 : Nat) ^ 122 = 16 ^ 30 * 4 := by norm_num
  rw [h122, Nat.mod_mul, Nat.mod_mul, h30, hv]

/-- Every redundancy key of a message other than `RunJavascriptMessage`
starts with two characters of which at least one is not a lowercase hex
digit: class-name prefixes start with an uppercase letter, the shared
`create-or-remove-...` prefixes have `'r'` in second position, and the
modal prefix starts with `'m'`.  A uuid4 string instead starts with two
lowercase hex digits, so the two families can never collide. -/
theorem key_head_not_hex (m : Msg) (d : Nat) (h : m.isRunJavascript = false) :
    ∃ c0 c1 rest, (redundancyKey m d).data = c0 :: c1 :: rest ∧
      (isHexLowerDigit c0 = false ∨ isHexLowerDigit c1 = false) := by
  cases m with
  | runJavascript source => simp [Msg.isRunJavascript] at h
  | createSceneNode name payload => exact ⟨'c', 'r', _, rfl, Or.inr (by decide)⟩
  | removeSceneNode name => exact ⟨'c', 'r', _, rfl, Or.inr (by decide)⟩
  | createGuiComponent uuid payload => exact ⟨'c', 'r', _, rfl, Or.inr (by decide)⟩
  | guiRemove uuid => exact ⟨'c', 'r', _, rfl, Or.inr (by decide)⟩
  | notification mode uuid props => exact ⟨'N', 'o', _, rfl, Or.inl (by decide)⟩
  | removeNotification uuid => exact ⟨'R', 'e', _, rfl, Or.inl (by decide)⟩
  | viewerCamera wxyz position fov near far ih iw la ud =>
      exact ⟨'V', 'i', _, rfl, Or.inl (by decide)⟩
  | scenePointer et ro rd sp => exact ⟨'S', 'c', _, rfl, Or.inl (by decide)⟩
  | scenePointerEnable enable et => exact ⟨'S', 'c', _, rfl, Or.inl (by decide)⟩
  | environmentMap hdri bg bb bi bw ei ew =>
      exact ⟨'E', 'n', _, rfl, Or.inl (by decide)⟩
  | enableLights enabled cs => exact ⟨'E', 'n', _, rfl, Or.inl (by decide)⟩
  | setBoneOrientation name bi wxyz => exact ⟨'S', 'e', _, rfl, Or.inl (by decide)⟩
  | setBonePosition name bi pos => exact ⟨'S', 'e', _, rfl, Or.inl (by decide)⟩
  | setCameraPosition pos => exact ⟨'S', 'e', _, rfl, Or.inl (by decide)⟩
  | setCameraUpDirection pos => exact ⟨'S', 'e', _, rfl, Or.inl (by decide)⟩
  | setCameraLookAt la => exact ⟨'S', 'e', _, rfl, Or.inl (by decide)⟩
  | setCameraNear near => exact ⟨'S', 'e', _, rfl, Or.inl (by decide)⟩
  | setCameraFar far => exact ⟨'S', 'e', _, rfl, Or.inl (by decide)⟩
  | setCameraFov fov => exact ⟨'S', 'e', _, rfl, Or.inl (by decide)⟩
  | setOrientation name wxyz => exact ⟨'S', 'e', _, rfl, Or.inl (by decide)⟩
  | setPosition name pos => exact ⟨'S', 'e', _, rfl, Or.inl (by decide)⟩
  | transformControlsUpdate name wxyz pos =>
      exact ⟨'T', 'r', _, rfl, Or.inl (by decide)⟩
  | transformControlsDragStart name => exact ⟨'T', 'r', _, rfl, Or.inl (by decide)⟩
  | transformControlsDragEnd name => exact ⟨'T', 'r', _, rfl, Or.inl (by decide)⟩
  | backgroundImage mt rd dd => exact ⟨'B', 'a', _, rfl, Or.inl (by decide)⟩
  | setSceneNodeVisibility name visible =>
      exact ⟨'S', 'e', _, rfl, Or.inl (by decide)⟩
  | setSceneNodeClickable name clickable =>
      exact ⟨'S', 'e', _, rfl, Or.inl (by decide)⟩
  | sceneNodeClick name ii ro rd sp => exact ⟨'S', 'c', _, rfl, Or.inl (by decide)⟩
  | resetGui => exact ⟨'R', 'e', _, rfl, Or.inl (by decide)⟩
  | guiModal order uuid title => exact ⟨'m', 'o', _, rfl, Or.inl (by decide)⟩
  | guiCloseModal uuid => exact ⟨'m', 'o', _, rfl, Or.inl (by decide)⟩
  | guiUpdate uuid updates => exact ⟨'G', 'u', _, rfl, Or.inl (by decide)⟩
  | sceneNodeUpdate name updates => exact ⟨'S', 'c', _, rfl, Or.inl (by decide)⟩
  | themeConfiguration tc cl cw sl ss dm colors =>
      exact ⟨'T', 'h', _, rfl, Or.inl (by decide)⟩
  | getRenderRequest format height width quality wxyz pos fov =>
      exact ⟨'G', 'e', _, rfl, Or.inl (by decide)⟩
  | getRenderResponse payload => exact ⟨'G', 'e', _, rfl, Or.inl (by decide)⟩
  | fileTransferStartUpload scu tu fn mt pc sb =>
      exact ⟨'F', 'i', _, rfl, Or.inl (by decide)⟩
  | fileTransferStartDownload si tu fn mt pc sb =>
      exact ⟨'F', 'i', _, rfl, Or.inl (by decide)⟩
  | fileTransferPart scu tu pi content => exact ⟨'F', 'i', _, rfl, Or.inl (by decide)⟩
  | fileTransferPartAck scu tu tb tob => exact ⟨'F', 'i', _, rfl, Or.inl (by decide)⟩
  | shareUrlRequest => exact ⟨'S', 'h', _, rfl, Or.inl (by decide)⟩
  | shareUrlUpdated su => exact ⟨'S', 'h', _, rfl, Or.inl (by decide)⟩
  | shareUrlDisconnect => exact ⟨'S', 'h', _, rfl, Or.inl (by decide)⟩
  | setGuiPanelLabel label => exact ⟨'S', 'e', _, rfl, Or.inl (by decide)⟩

/-- A non-overriding message's key is exactly the base-class formula. -/
theorem redundancyKey_default (m : Msg) (d : Nat)
    (h : m.overridesRedundancyKey = false) :
    redundancyKey m d = defaultRedundancyKey m.kindName m.identityField := by
  cases m <;> first | rfl | simp [Msg.overridesRedundancyKey] at h

/-- For a fixed kind name, the base-class key determines the identifying
field and vice versa. -/
theorem defaultRedundancyKey_inj (k : String) (i1 i2 : Option String) :
    defaultRedundancyKey k i1 = defaultRedundancyKey k i2 ↔ i1 = i2 := by
  constructor
  · intro h
    match i1, i2 with
    | none, none => rfl
    | none, some s =>
      exfalso
      have hl := congrArg String.length h
      simp only [defaultRedundancyKey, String.length_append] at hl
      have h1 : ("_" : String).length = 1 := rfl
      omega
    | some s, none =>
      exfalso
      have hl := congrArg String.length h
      simp only [defaultRedundancyKey, String.length_append] at hl
      have h1 : ("_" : String).length = 1 := rfl
      omega
    | some s1, some s2 =>
      simp only [defaultRedundancyKey] at h
      exact congrArg some (string_append_inj_right h)
  · rintro rfl
    rfl

/- ------------------------------------------------------------------ -/
/- Claim theorems.                                                     -/
/- ------------------------------------------------------------------ -/

/-- C1 (counterexample): in the spec's own outbox (enqueue replaces an
equal-key entry in place, flush drains the buffer), creating node `"robot"`
and then removing it before any flush does NOT leave the flushed output
empty: the remove message itself is still delivered, so it is false that
"neither reaches the client". -/
theorem create_remove_flush_contains_remove :
    (Msg.removeSceneNode "robot") ∈
      flush (enqueue 0 (enqueue 0 [] (.createSceneNode "robot" (.label ⟨"hi"⟩)))
        (.removeSceneNode "robot")) := by
  decide

/-- C1 (amended): for every scene-node name the create and remove messages
share one redundancy key, and likewise for every GUI element UUID; hence a
remove enqueued before the create was ever flushed supersedes (culls) the
create — the create never reaches the client — while the remove itself is
delivered in the create's buffer slot. -/
theorem create_remove_redundancy (name uuid : String) (sp : SceneNodePayload)
    (gp : GuiComponentPayload) (d1 d2 d3 d4 : Nat) :
    redundancyKey (.createSceneNode name sp) d1 =
        redundancyKey (.removeSceneNode name) d2 ∧
    redundancyKey (.createGuiComponent uuid gp) d1 =
        redundancyKey (.guiRemove uuid) d2 ∧
    flush (enqueue d2 (enqueue d1 [] (.createSceneNode name sp))
        (.removeSceneNode name)) = [.removeSceneNode name] ∧
    flush (enqueue d4 (enqueue d3 [] (.createGuiComponent uuid gp))
        (.guiRemove uuid)) = [.guiRemove uuid] := by
  refine ⟨rfl, rfl, ?_, ?_⟩
  · simp [enqueue, flush, redundancyKey]
  · simp [enqueue, flush, redundancyKey]

/-- C3 (counterexample): `RunJavascriptMessage.redundancy_key` calls
`uuid.uuid4()`, so two evaluations on the same message with different RNG
draws return different strings — the key is not a pure function of message
content. -/
theorem runJavascript_key_varies_across_draws :
    redundancyKey (.runJavascript "x") 0 ≠ redundancyKey (.runJavascript "x") 1 := by
  decide

/-- C3 (amended): `redundancy_key` is defined for every message variant and
is a deterministic function of message content for every variant EXCEPT
`RunJavascriptMessage`, whose key is a fresh uuid4 drawn per call. -/
theorem redundancy_key_deterministic_except_runJavascript (m : Msg) (d1 d2 : Nat)
    (h : m.isRunJavascript = false) : redundancyKey m d1 = redundancyKey m d2 := by
  cases m <;> first | rfl | simp [Msg.isRunJavascript] at h

theorem redundancy_key_deterministic_witness :
    Msg.isRunJavascript .resetGui = false ∧
      redundancyKey .resetGui 0 = redundancyKey .resetGui 1 :=
  ⟨rfl, redundancy_key_deterministic_except_runJavascript .resetGui 0 1 rfl⟩

/-- C9: the open-modal message (`GuiModalMessage`) and the close-modal
message (`GuiCloseModalMessage`) for the same UUID share one redundancy
key, so an open-modal message that has not yet been flushed is superseded
(culled) by a subsequent close-modal message for that UUID. -/
theorem modal_open_close_coalesce (order : PyFloat) (uuid title : String)
    (d1 d2 d3 d4 : Nat) :
    redundancyKey (.guiModal order uuid title) d1 =
        redundancyKey (.guiCloseModal uuid) d2 ∧
    flush (enqueue d4 (enqueue d3 [] (.guiModal order uuid title))
        (.guiCloseModal uuid)) = [.guiCloseModal uuid] ∧
    (Msg.guiModal order uuid title) ∉
      flush (enqueue d4 (enqueue d3 [] (.guiModal order uuid title))
        (.guiCloseModal uuid)) := by
  refine ⟨rfl, ?_, ?_⟩
  · simp [enqueue, flush, redundancyKey]
  · simp [enqueue, flush, redundancyKey]

/-- C10: the `ScenePointerEnableMessage` redundancy key depends on both the
event type and the enable flag — keys are equal iff both fields agree — so
an enable and a subsequent disable for the same event type never coalesce
(both are delivered), while repeats of the same message coalesce to one. -/
theorem scenePointerEnable_key_characterization (b1 b2 : Bool)
    (e1 e2 : ScenePointerEventType) (d1 d2 d3 d4 : Nat) :
    (redundancyKey (.scenePointerEnable b1 e1) d1 =
        redundancyKey (.scenePointerEnable b2 e2) d2 ↔ b1 = b2 ∧ e1 = e2) ∧
    flush (enqueue d4 (enqueue d3 [] (.scenePointerEnable true e1))
        (.scenePointerEnable false e1)) =
      [.scenePointerEnable true e1, .scenePointerEnable false e1] ∧
    flush (enqueue d4 (enqueue d3 [] (.scenePointerEnable b1 e1))
        (.scenePointerEnable b1 e1)) = [.scenePointerEnable b1 e1] := by
  cases b1 <;> cases b2 <;> cases e1 <;> cases e2 <;>
    exact ⟨by simp only [redundancyKey]; decide, by rfl, by rfl⟩

/-- C2 (counterexample): two GUI updates to the same element whose changed
property-name SETS are equal (here `{a, b}`, listed in the two possible
orders) have DIFFERENT redundancy keys: the source joins `updates.keys()`
in dict insertion order without sorting, so the claimed
"equal keys iff equal name sets" fails. -/
theorem update_key_depends_on_name_order :
    List.Perm ["a", "b"] ["b", "a"] ∧
    redundancyKey (.guiUpdate "u" [("a", .int 0), ("b", .int 0)]) 0 ≠
      redundancyKey (.guiUpdate "u" [("b", .int 0), ("a", .int 0)]) 0 := by
  exact ⟨by decide, by decide⟩

/-- C2 (amended): a property-update message's redundancy key is the kind
name plus the target identity plus the comma-join of the changed property
names in their dict insertion order (NOT sorted); for two updates to the
same target, the redundancy keys are equal iff those comma-joined name
lists are equal — so repeated updates listing the same names in the same
order collapse, while updates whose joined name lists differ coexist. -/
theorem update_message_key_characterization (u n : String)
    (ups1 ups2 : List (String × PropVal)) (d1 d2 : Nat) :
    (redundancyKey (.guiUpdate u ups1) d1 = redundancyKey (.guiUpdate u ups2) d2 ↔
      joinComma (ups1.map Prod.fst) = joinComma (ups2.map Prod.fst)) ∧
    (redundancyKey (.sceneNodeUpdate n ups1) d1 =
        redundancyKey (.sceneNodeUpdate n ups2) d2 ↔
      joinComma (ups1.map Prod.fst) = joinComma (ups2.map Prod.fst)) := by
  constructor
  · constructor
    · intro h
      simp only [redundancyKey] at h
      exact string_append_inj_right h
    · intro h
      simp only [redundancyKey, h]
  · constructor
    · intro h
      simp only [redundancyKey] at h
      exact string_append_inj_right h
    · intro h
      simp only [redundancyKey, h]

/-- C4 (counterexample): `GetRenderResponseMessage` does not override
`redundancy_key` and has no identifying field, so its key is the constant
kind name: two DIFFERENT render-response messages share one redundancy key
and would coalesce — contradicting the claim that render-response messages
never collide with any other message. -/
theorem getRenderResponse_keys_collide :
    redundancyKey (.getRenderResponse [0]) 0 =
        redundancyKey (.getRenderResponse [1]) 0 ∧
      (Msg.getRenderResponse [0]) ≠ (Msg.getRenderResponse [1]) :=
  ⟨rfl, by decide⟩

/-- C4 (amended): the fresh-uuid key of `RunJavascriptMessage` never equals
the key of any other message kind (their keys never look like a uuid4
string), and two RunJavascript keys differ whenever the 122 random bits of
their draws differ, so such messages are never culled; but
`GetRenderResponseMessage` falls back to the constant kind-name key, so
distinct render responses DO share a key. -/
theorem identityless_key_collision_characterization :
    (∀ (s : String) (m : Msg) (d1 d2 : Nat), m.isRunJavascript = false →
      redundancyKey (.runJavascript s) d1 ≠ redundancyKey m d2) ∧
    (∀ (s1 s2 : String) (d1 d2 : Nat), d1 % 2 ^ 122 ≠ d2 % 2 ^ 122 →
      redundancyKey (.runJavascript s1) d1 ≠ redundancyKey (.runJavascript s2) d2) ∧
    (∀ (p : Bytes) (d : Nat),
      redundancyKey (.getRenderResponse p) d = "GetRenderResponseMessage") := by
  refine ⟨?_, ?_, fun p d => rfl⟩
  · intro s m d1 d2 hm heq
    obtain ⟨c0, c1, rest, hdata, hbad⟩ := key_head_not_hex m d2 hm
    have hd : uuid4Chars d1 = c0 :: c1 :: rest := by
      have := congrArg String.data heq
      rw [hdata] at this
      exact this
    rw [uuid4Chars] at hd
    simp only [List.cons.injEq] at hd
    have hh0 : isHexLowerDigit c0 = true := by
      rw [← hd.1]
      exact hexChar_isHex _ (nib_lt d1 0)
    have hh1 : isHexLowerDigit c1 = true := by
      rw [← hd.2.1]
      exact hexChar_isHex _ (nib_lt d1 1)
    rcases hbad with hb | hb
    · rw [hh0] at hb
      exact Bool.noConfusion hb
    · rw [hh1] at hb
      exact Bool.noConfusion hb
  · intro s1 s2 d1 d2 hne heq
    exact hne (uuid4Chars_inj (congrArg String.data heq))

theorem identityless_key_collision_witness :
    (Msg.isRunJavascript .resetGui = false ∧
      redundancyKey (.runJavascript "x") 0 ≠ redundancyKey .resetGui 0) ∧
    ((0 : Nat) % 2 ^ 122 ≠ 1 % 2 ^ 122 ∧
      redundancyKey (.runJavascript "x") 0 ≠ redundancyKey (.runJavascript "x") 1) ∧
    redundancyKey (.getRenderResponse []) 0 = "GetRenderResponseMessage" :=
  ⟨⟨rfl, identityless_key_collision_characterization.1 "x" .resetGui 0 0 rfl⟩,
   ⟨by decide, identityless_key_collision_characterization.2.1 "x" "x" 0 1 (by decide)⟩,
   identityless_key_collision_characterization.2.2 [] 0⟩

/-- C5 (counterexample): create node `"robot"`, update its position to
`(1,0,0)` three times, then remove it, all before any flush — the flushed
output is NOT empty: the position updates' redundancy key
(`SceneNodeUpdateMessage-robot-position`) does not coincide with the
create/remove key (`create-or-remove-scene-robot`), so the coalesced update
survives the flush. -/
theorem robot_scenario_flush_nonempty :
    flush (enqueue 0 (enqueue 0 (enqueue 0 (enqueue 0 (enqueue 0 []
      (.createSceneNode "robot" (.frame ⟨true, 1, 1/10, 1/10, (0, 0, 0)⟩)))
      (.sceneNodeUpdate "robot" [("position", .triple 1 0 0)]))
      (.sceneNodeUpdate "robot" [("position", .triple 1 0 0)]))
      (.sceneNodeUpdate "robot" [("position", .triple 1 0 0)]))
      (.removeSceneNode "robot")) ≠ [] ∧
    redundancyKey (.sceneNodeUpdate "robot" [("position", .triple 1 0 0)]) 0 ≠
      redundancyKey (.removeSceneNode "robot") 0 := by
  exact ⟨by decide, by decide⟩

/-- C5 (amended): in the robot scenario the create IS culled by the remove
(shared key) and the three position updates coalesce into a single final
update (shared key among themselves), but the update's key differs from the
create/remove key, so the flushed output is
`[remove "robot", final update]` rather than empty. -/
theorem robot_scenario_flush_content :
    flush (enqueue 0 (enqueue 0 (enqueue 0 (enqueue 0 (enqueue 0 []
      (.createSceneNode "robot" (.frame ⟨true, 1, 1/10, 1/10, (0, 0, 0)⟩)))
      (.sceneNodeUpdate "robot" [("position", .triple 1 0 0)]))
      (.sceneNodeUpdate "robot" [("position", .triple 1 0 0)]))
      (.sceneNodeUpdate "robot" [("position", .triple 1 0 0)]))
      (.removeSceneNode "robot")) =
      [.removeSceneNode "robot",
       .sceneNodeUpdate "robot" [("position", .triple 1 0 0)]] ∧
    redundancyKey (.sceneNodeUpdate "robot" [("position", .triple 1 0 0)]) 0 ≠
      redundancyKey (.createSceneNode "robot"
        (.frame ⟨true, 1, 1/10, 1/10, (0, 0, 0)⟩)) 0 ∧
    redundancyKey (.setPosition "robot" (1, 0, 0)) 0 ≠
      redundancyKey (.removeSceneNode "robot") 0 := by
  exact ⟨by decide, by decide, by decide⟩

/-- C7: every message variant that does not override `redundancy_key` gets
the base-class key: exactly the kind name when the message has no
identifying field (so any two messages of such a kind coalesce), and the
kind name joined with the identifying `name`/`uuid` field otherwise, so two
non-overriding messages of one kind have equal keys iff their identifying
fields are equal. -/
theorem default_redundancy_key_characterization :
    (∀ (m : Msg) (d : Nat), m.overridesRedundancyKey = false →
      m.identityField = none → redundancyKey m d = m.kindName) ∧
    (∀ (m m' : Msg) (d d' : Nat), m.overridesRedundancyKey = false →
      m'.overridesRedundancyKey = false → m.kindName = m'.kindName →
      (redundancyKey m d = redundancyKey m' d' ↔
        m.identityField = m'.identityField)) := by
  constructor
  · intro m d h hid
    rw [redundancyKey_default m d h, hid]
    rfl
  · intro m m' d d' h h' hk
    rw [redundancyKey_default m d h, redundancyKey_default m' d' h', ← hk]
    exact defaultRedundancyKey_inj m.kindName m.identityField m'.identityField

theorem default_redundancy_key_witness :
    (Msg.overridesRedundancyKey .resetGui = false ∧
      Msg.identityField .resetGui = none ∧
      redundancyKey .resetGui 0 = Msg.kindName .resetGui) ∧
    (redundancyKey (.setPosition "a" (0, 0, 0)) 0 =
        redundancyKey (.setPosition "b" (0, 0, 0)) 0 ↔
      Msg.identityField (.setPosition "a" (0, 0, 0)) =
        Msg.identityField (.setPosition "b" (0, 0, 0))) :=
  ⟨⟨rfl, rfl, default_redundancy_key_characterization.1 .resetGui 0 rfl rfl⟩,
   default_redundancy_key_characterization.2 (.setPosition "a" (0, 0, 0))
     (.setPosition "b" (0, 0, 0)) 0 0 rfl rfl rfl⟩

/-- C8: two `FileTransferPart` messages with nonnegative part indices have
equal redundancy keys iff both the transfer UUID and the part index agree —
distinct parts (or parts of distinct transfers) never coalesce, while a
re-sent part with the same `(transfer_uuid, part_index)` coalesces. -/
theorem fileTransferPart_key_characterization
    (scu1 scu2 : Option String) (t1 t2 : String) (i1 i2 : Int) (c1 c2 : Bytes)
    (d1 d2 : Nat) (h1 : 0 ≤ i1) (h2 : 0 ≤ i2) :
    redundancyKey (.fileTransferPart scu1 t1 i1 c1) d1 =
        redundancyKey (.fileTransferPart scu2 t2 i2 c2) d2 ↔
      t1 = t2 ∧ i1 = i2 := by
  obtain ⟨n1, rfl⟩ := Int.eq_ofNat_of_zero_le h1
  obtain ⟨n2, rfl⟩ := Int.eq_ofNat_of_zero_le h2
  constructor
  · intro h
    simp only [redundancyKey] at h
    have hd := congrArg String.data h
    have hdash : ("-" : String).data = ['-'] := rfl
    simp only [String.data_append, hdash, List.append_assoc,
      List.singleton_append] at hd
    have hd2 := List.append_cancel_left hd
    have hm1 : '-' ∉ (intStr (Int.ofNat n1)).data := dash_not_mem_natDigits n1
    have hm2 : '-' ∉ (intStr (Int.ofNat n2)).data := dash_not_mem_natDigits n2
    have hsplit := append_dash_inj hm1 hm2 (List.cons.inj hd2).2
    refine ⟨String.ext hsplit.1, ?_⟩
    have := natDigits_inj (m := n1) (n := n2) hsplit.2
    exact congrArg Int.ofNat this
  · rintro ⟨rfl, h⟩
    have : n1 = n2 := by exact_mod_cast h
    rw [this]
    rfl

/-- C6 (counterexample): `BatchedAxesMessage` pairs `batched_wxyzs : (N,4)`
with `batched_positions : (N,3)` but `BatchedAxesProps` defines no
`__post_init__`, so constructing it with mismatched leading dimensions
(2 vs 3) succeeds instead of failing at construction time. -/
theorem batchedAxes_mismatched_shapes_construct :
    BatchedAxesProps.construct ⟨[2, 4], .float32⟩ ⟨[3, 3], .float32⟩ none 1 1 =
      some ⟨⟨[2, 4], .float32⟩, ⟨[3, 3], .float32⟩, none, 1, 1⟩ ∧
    (2 : Nat) ≠ 3 :=
  ⟨rfl, by decide⟩

/-- C6 (amended): construction-time validation of paired array shapes holds
for `PointCloudProps` (points vs per-point colors), `SkinnedMeshProps`
(bone orientations vs bone positions) and `BatchedGlbProps` (batched
quaternions vs batched positions): mismatched leading dimensions make the
constructor fail.  It does NOT hold for every such variant:
`BatchedAxesProps`, `LineSegmentsProps`, `CubicBezierSplineProps`, and
`BatchedMeshesProps` (whose `_BatchedMeshExtraProps.__post_init__` is
shadowed by the MRO) perform no pair check at construction. -/
theorem paired_shape_checks_at_construction :
    (∀ (N n : Nat) (dt1 dt2 : DType) (point_size : PyFloat)
      (point_shape : PointShape) (precision : Precision), n ≠ N →
      PointCloudProps.construct ⟨[N, 3], dt1⟩ ⟨[n, 3], dt2⟩ point_size
        point_shape precision = none) ∧
    (∀ (vertices faces : NDArray) (color : Int × Int × Int) (wireframe : Bool)
      (opacity : Option PyFloat) (flat_shading : Bool) (side : Side)
      (material : Material) (cast_shadow receive_shadow : Bool)
      (b1 b2 : Nat) (dtw dtp : DType) (skin_indices skin_weights : NDArray),
      b1 ≠ b2 →
      SkinnedMeshProps.construct vertices faces color wireframe opacity
        flat_shading side material cast_shadow receive_shadow
        ⟨[b1, 4], dtw⟩ ⟨[b2, 3], dtp⟩ skin_indices skin_weights = none) ∧
    (∀ (n1 n2 : Nat) (dtw dtp : DType) (batched_scales : Option NDArray)
      (lod : Lod) (glb_data : Bytes) (scale : PyFloat)
      (cast_shadow receive_shadow : Bool), n1 ≠ n2 →
      BatchedGlbProps.construct ⟨[n1, 4], dtw⟩ ⟨[n2, 3], dtp⟩ batched_scales
        lod glb_data scale cast_shadow receive_shadow = none) := by
  refine ⟨?_, ?_, ?_⟩
  · intro N n dt1 dt2 point_size point_shape precision hne
    simp [PointCloudProps.construct, PointCloudProps.checks, hne]
  · intro vertices faces color wireframe opacity flat_shading side material
      cast_shadow receive_shadow b1 b2 dtw dtp skin_indices skin_weights hne
    simp [SkinnedMeshProps.construct, SkinnedMeshProps.checks, hne]
  · intro n1 n2 dtw dtp batched_scales lod glb_data scale cast_shadow
      receive_shadow hne
    simp [BatchedGlbProps.construct, BatchedGlbProps.checks, hne]

theorem paired_shape_checks_witness :
    ((3 : Nat) ≠ 2 ∧
      PointCloudProps.construct ⟨[2, 3], .float32⟩ ⟨[3, 3], .uint8⟩ 1 .circle
        .float32 = none) ∧
    ((2 : Nat) ≠ 5 ∧
      SkinnedMeshProps.construct ⟨[4, 3], .float32⟩ ⟨[2, 3], .uint32⟩ (0, 0, 0)
        false none false .front .standard false false ⟨[2, 4], .float32⟩
        ⟨[5, 3], .float32⟩ ⟨[4, 4], .uint16⟩ ⟨[4, 4], .float32⟩ = none) ∧
    ((1 : Nat) ≠ 2 ∧
      BatchedGlbProps.construct ⟨[1, 4], .float32⟩ ⟨[2, 3], .float32⟩ none .auto
        [] 1 false false = none) :=
  ⟨⟨by decide, paired_shape_checks_at_construction.1 2 3 .float32 .uint8 1
      .circle .float32 (by decide)⟩,
   ⟨by decide, paired_shape_checks_at_construction.2.1 ⟨[4, 3], .float32⟩
      ⟨[2, 3], .uint32⟩ (0, 0, 0) false none false .front .standard false false
      2 5 .float32 .float32 ⟨[4, 4], .uint16⟩ ⟨[4, 4], .float32⟩ (by decide)⟩,
   ⟨by decide, paired_shape_checks_at_construction.2.2 1 2 .float32 .float32
      none .auto [] 1 false false (by decide)⟩⟩

theorem fileTransferPart_key_witness :
    (0 : Int) ≤ 3 ∧
    (redundancyKey (.fileTransferPart none "t" 3 []) 0 =
        redundancyKey (.fileTransferPart (some "c") "t" 3 [1]) 1 ↔
      ("t" : String) = "t" ∧ (3 : Int) = 3) :=
  ⟨by decide,
   fileTransferPart_key_characterization none (some "c") "t" "t" 3 3 [] [1] 0 1
     (by decide) (by decide)⟩

end Viser
